import Mathlib

/-!
Verification development for `FullMimoOfdmSystemSimV1.0.py`, a script that
wires library physical-layer blocks into a multi-user MIMO-OFDM link-level
simulation and a Monte-Carlo BER/BLER study driver.

The script's own logic is configuration and orchestration; the external
library blocks (LDPC codec, mappers, 3GPP channel models, estimators,
equalizers, the `sim_ber` driver) are embedded symbolically: a block
application is a constructor of the symbolic `Tensor` type, so the wiring
and ordering performed by the script is fully visible in the terms, while
block-internal numerics stay abstract.  Shape and loop contracts of
library blocks, where a claim needs them, are modelled from their
documented behaviour and marked as such in doc comments.
-/

/-- An antenna array configuration, as passed to the library's
`AntennaArray` constructor (lines 119-132 of the script). -/
structure AntennaArray where
  numRows : Nat
  numCols : Nat
  polarization : String
  polarizationType : String
  antennaPattern : String
  carrierFrequency : ℚ
deriving DecidableEq, Repr

/-- Total number of antenna elements: dual polarization doubles the
`numRows * numCols` panel size. -/
def AntennaArray.numAnt (a : AntennaArray) : Nat :=
  a.numRows * a.numCols * (if a.polarization = "dual" then 2 else 1)

/-- The OFDM resource-grid configuration, as passed to the library's
`ResourceGrid` constructor (lines 106-113 of the script).  The guard
carrier and DC-null fields take the library's default values, which the
script does not override. -/
structure ResourceGrid where
  numOfdmSymbols : Nat
  fftSize : Nat
  subcarrierSpacing : ℚ
  numTx : Nat
  numStreamsPerTx : Nat
  cyclicPrefixLength : Nat
  pilotPattern : String
  pilotOfdmSymbolIndices : List Nat
  numGuardCarriersLeft : Nat
  numGuardCarriersRight : Nat
  dcNull : Bool
deriving DecidableEq, Repr

/-- Modelled from the spec: the external library's resource grid exposes
the number of effective (non-guard, non-DC) subcarriers. -/
def ResourceGrid.numEffectiveSubcarriers (rg : ResourceGrid) : Nat :=
  rg.fftSize - rg.numGuardCarriersLeft - rg.numGuardCarriersRight -
    (if rg.dcNull then 1 else 0)

/-- Modelled from the spec: with the "kronecker" pilot pattern used by the
script, every effective subcarrier of each pilot OFDM symbol carries a
pilot, so the pilot resource elements number
`|pilotOfdmSymbolIndices| * numEffectiveSubcarriers`. -/
def ResourceGrid.numPilotSymbols (rg : ResourceGrid) : Nat :=
  rg.pilotOfdmSymbolIndices.length * rg.numEffectiveSubcarriers

/-- Modelled from the spec: the external library's
`ResourceGrid.num_data_symbols`, the resource elements available for data
per stream: all effective resource elements minus the pilot ones. -/
def ResourceGrid.numDataSymbols (rg : ResourceGrid) : Nat :=
  rg.numOfdmSymbols * rg.numEffectiveSubcarriers - rg.numPilotSymbols

/-- Stream management configuration (line 116 of the script). -/
structure StreamManagement where
  rxTxAssociation : List (List Nat)
  numStreamsPerTx : Nat
deriving DecidableEq, Repr

/-- The library's 5G NR LDPC encoder, identified by its code parameters
`(k, n)` (line 176 of the script). -/
structure LDPC5GEncoder where
  k : Nat
  n : Nat
deriving DecidableEq, Repr

/-- The library's 5G NR LDPC decoder, constructed from an encoder and
hence carrying the same code (line 177 of the script). -/
structure LDPC5GDecoder where
  encoder : LDPC5GEncoder
deriving DecidableEq, Repr

/-- Constellation mapper configuration (line 179 of the script). -/
structure MapperCfg where
  constellationType : String
  numBitsPerSymbol : Nat
deriving DecidableEq, Repr

/-- Demapper configuration (line 188 of the script). -/
structure DemapperCfg where
  demappingMethod : String
  constellationType : String
  numBitsPerSymbol : Nat
deriving DecidableEq, Repr

/-- The 3GPP TR 38.901 channel model selected by `__init__`
(lines 135-167 of the script), with the constructor arguments the script
passes to the library. -/
inductive ChannelModel where
  | UMi (carrierFrequency : ℚ) (o2iModel : String)
        (utArray bsArray : AntennaArray) (direction : String)
        (enablePathloss enableShadowFading : Bool)
  | UMa (carrierFrequency : ℚ) (o2iModel : String)
        (utArray bsArray : AntennaArray) (direction : String)
        (enablePathloss enableShadowFading : Bool)
  | RMa (carrierFrequency : ℚ)
        (utArray bsArray : AntennaArray) (direction : String)
        (enablePathloss enableShadowFading : Bool)
  | CDL (model : String) (delaySpread : ℚ) (carrierFrequency : ℚ)
        (utArray bsArray : AntennaArray) (direction : String)
        (minSpeed : ℚ)
deriving DecidableEq, Repr

/-- The link direction the channel model was configured with. -/
def ChannelModel.direction : ChannelModel → String
  | .UMi _ _ _ _ d _ _ => d
  | .UMa _ _ _ _ d _ _ => d
  | .RMa _ _ _ d _ _ => d
  | .CDL _ _ _ _ _ d _ => d

/-- The UT antenna array the channel model was configured with. -/
def ChannelModel.utArr : ChannelModel → AntennaArray
  | .UMi _ _ u _ _ _ _ => u
  | .UMa _ _ u _ _ _ _ => u
  | .RMa _ u _ _ _ _ => u
  | .CDL _ _ _ u _ _ _ => u

/-- The BS antenna array the channel model was configured with. -/
def ChannelModel.bsArr : ChannelModel → AntennaArray
  | .UMi _ _ _ b _ _ _ => b
  | .UMa _ _ _ b _ _ _ => b
  | .RMa _ _ b _ _ _ => b
  | .CDL _ _ _ _ b _ _ => b

/-- Number of receive antennas: the BS receives on the uplink, the UT on
the downlink. -/
def ChannelModel.numRxAnt (cm : ChannelModel) : Nat :=
  if cm.direction = "uplink" then cm.bsArr.numAnt else cm.utArr.numAnt

/-- Number of transmit antennas (the other end of the link). -/
def ChannelModel.numTxAnt (cm : ChannelModel) : Nat :=
  if cm.direction = "uplink" then cm.utArr.numAnt else cm.bsArr.numAnt

/-- OFDM channel configuration, as passed to the library's `OFDMChannel`
constructor (lines 182-183 of the script). -/
structure OFDMChannelCfg where
  channelModel : ChannelModel
  rg : ResourceGrid
  addAwgn : Bool
  normalizeChannel : Bool
  returnChannel : Bool
deriving DecidableEq, Repr

/-- LS channel-estimator configuration (line 186 of the script). -/
structure LSChannelEstimatorCfg where
  rg : ResourceGrid
  interpolationType : String
deriving DecidableEq, Repr

/-- LMMSE equalizer configuration (line 187 of the script). -/
structure LMMSEEqualizerCfg where
  rg : ResourceGrid
  sm : StreamManagement
deriving DecidableEq, Repr

/-- A Python runtime error raised by the script. -/
inductive PyError where
  | attributeError (msg : String)
deriving DecidableEq, Repr

/-- The noise power fed to the chain: the symbolic value of the library
call `ebnodb2no(ebno_db, num_bits_per_symbol, coderate, rg)`
(line 208 of the script). -/
inductive Noise where
  | ebnodb2no (ebnoDb : ℚ) (numBitsPerSymbol : Nat) (coderate : ℚ)
              (rg : ResourceGrid)
deriving DecidableEq, Repr

/-- Symbolic tensors: each constructor is the application of one library
block, recording the block's configuration and inputs.  The forward pass
of the script builds such terms, so the wiring order is fully explicit. -/
inductive Tensor where
  | binarySource (shape : List Nat)
  | scalarConst (value : ℚ)
  | ldpcEncode (enc : LDPC5GEncoder) (b : Tensor)
  | qamMap (cfg : MapperCfg) (c : Tensor)
  | resourceGridMap (rg : ResourceGrid) (x : Tensor)
  | ofdmChannelY (ch : OFDMChannelCfg) (xRg : Tensor) (no : Noise)
  | ofdmChannelH (ch : OFDMChannelCfg) (xRg : Tensor) (no : Noise)
  | removeNulledSubcarriers (rg : ResourceGrid) (h : Tensor)
  | lsEstimateH (est : LSChannelEstimatorCfg) (y : Tensor) (no : Noise)
  | lsEstimateErrVar (est : LSChannelEstimatorCfg) (y : Tensor) (no : Noise)
  | lmmseEqualizeX (equ : LMMSEEqualizerCfg) (y hHat errVar : Tensor)
                   (no : Noise)
  | lmmseEqualizeNoEff (equ : LMMSEEqualizerCfg) (y hHat errVar : Tensor)
                       (no : Noise)
  | demap (cfg : DemapperCfg) (xHat noEff : Tensor)
  | ldpcDecode (dec : LDPC5GDecoder) (llr : Tensor)
deriving DecidableEq, Repr

/-- The batch (leading) dimension of a symbolic tensor: every library
block in the chain preserves it from its main input. -/
def Tensor.batchDim : Tensor → Nat
  | .binarySource s => s.headI
  | .scalarConst _ => 0
  | .ldpcEncode _ t => t.batchDim
  | .qamMap _ t => t.batchDim
  | .resourceGridMap _ t => t.batchDim
  | .ofdmChannelY _ t _ => t.batchDim
  | .ofdmChannelH _ t _ => t.batchDim
  | .removeNulledSubcarriers _ t => t.batchDim
  | .lsEstimateH _ t _ => t.batchDim
  | .lsEstimateErrVar _ t _ => t.batchDim
  | .lmmseEqualizeX _ y _ _ _ => y.batchDim
  | .lmmseEqualizeNoEff _ y _ _ _ => y.batchDim
  | .demap _ t _ => t.batchDim
  | .ldpcDecode _ t => t.batchDim

/-- Modelled from the spec: the documented shape contract of each external
library block.  The encoder maps `[..., k]` to `[..., n]`; the mapper
packs `numBitsPerSymbol` bits per symbol; the resource-grid mapper lays
the symbols on the `numOfdmSymbols × fftSize` grid; the equalizer
returns one soft symbol per data resource element and stream; the
demapper unpacks bits; the decoder maps `[..., n]` back to `[..., k]`. -/
def Tensor.shape : Tensor → List Nat
  | .binarySource s => s
  | .scalarConst _ => []
  | .ldpcEncode enc t => t.shape.dropLast ++ [enc.n]
  | .qamMap cfg t => t.shape.dropLast ++ [t.shape.getLast! / cfg.numBitsPerSymbol]
  | .resourceGridMap rg t => t.shape.dropLast ++ [rg.numOfdmSymbols, rg.fftSize]
  | .ofdmChannelY ch t _ =>
      [t.batchDim, 1, ch.channelModel.numRxAnt,
       ch.rg.numOfdmSymbols, ch.rg.fftSize]
  | .ofdmChannelH ch t _ =>
      [t.batchDim, 1, ch.channelModel.numRxAnt, 1, ch.channelModel.numTxAnt,
       ch.rg.numOfdmSymbols, ch.rg.fftSize]
  | .removeNulledSubcarriers rg t => t.shape.dropLast ++ [rg.numEffectiveSubcarriers]
  | .lsEstimateH est y _ =>
      y.shape.take 3 ++ [est.rg.numTx, est.rg.numStreamsPerTx,
                         est.rg.numOfdmSymbols, est.rg.numEffectiveSubcarriers]
  | .lsEstimateErrVar est y _ =>
      y.shape.take 3 ++ [est.rg.numTx, est.rg.numStreamsPerTx,
                         est.rg.numOfdmSymbols, est.rg.numEffectiveSubcarriers]
  | .lmmseEqualizeX equ y _ _ _ =>
      [y.batchDim, equ.rg.numTx, equ.rg.numStreamsPerTx, equ.rg.numDataSymbols]
  | .lmmseEqualizeNoEff equ y _ _ _ =>
      [y.batchDim, equ.rg.numTx, equ.rg.numStreamsPerTx, equ.rg.numDataSymbols]
  | .demap cfg t _ => t.shape.dropLast ++ [t.shape.getLast! * cfg.numBitsPerSymbol]
  | .ldpcDecode dec t => t.shape.dropLast ++ [dec.encoder.k]

/-- The network topology drawn by `gen_single_sector_topology` and
installed by `set_topology` (lines 192-198 of the script), recorded by
the arguments the script passes. -/
structure Topology where
  batchSize : Nat
  numUt : Nat
  scenario : String
  minUtVelocity : ℚ
  maxUtVelocity : ℚ
deriving DecidableEq, Repr

/-- The mutable state of the channel model: the topology most recently
installed by `set_topology`, if any. -/
structure ChannelState where
  topology : Option Topology
deriving DecidableEq, Repr

/-- The nominal delay spread, `self._delay_spread = 300e-9` s
(line 80 of the script). -/
def nominalDelaySpread : ℚ := 300 / 1000000000

/-- The UT antenna array built in `__init__` (lines 119-125):
`num_ut_ant = 4` dual-polarized elements in one row of `4/2` columns. -/
def utArrayOf (cf : ℚ) : AntennaArray :=
  { numRows := 1, numCols := 4 / 2, polarization := "dual",
    polarizationType := "cross", antennaPattern := "38.901",
    carrierFrequency := cf }

/-- The BS antenna array built in `__init__` (lines 127-132):
`num_bs_ant = 8` dual-polarized elements in one row of `8/2` columns. -/
def bsArrayOf (cf : ℚ) : AntennaArray :=
  { numRows := 1, numCols := 8 / 2, polarization := "dual",
    polarizationType := "cross", antennaPattern := "38.901",
    carrierFrequency := cf }

/-- The resource grid built in `__init__` (lines 106-113): 14 OFDM
symbols, FFT size 76, 30 kHz subcarrier spacing, 1 transmitter with 4
streams, cyclic prefix 20, kronecker pilots on OFDM symbols 2 and 11. -/
def theResourceGrid : ResourceGrid :=
  { numOfdmSymbols := 14, fftSize := 76, subcarrierSpacing := 30000,
    numTx := 1, numStreamsPerTx := 4, cyclicPrefixLength := 20,
    pilotPattern := "kronecker", pilotOfdmSymbolIndices := [2, 11],
    numGuardCarriersLeft := 0, numGuardCarriersRight := 0, dcNull := false }

/-- The stream management built in `__init__` (line 116): the rx/tx
association matrix `[[1]]` with 4 streams per transmitter. -/
def theStreamManagement : StreamManagement :=
  { rxTxAssociation := [[1]], numStreamsPerTx := 4 }

/-- The channel-model selection of `__init__` (lines 135-167): "umi",
"uma" and "rma" build the corresponding stochastic-geometry models, the
letters "A".."E" build a CDL model with the nominal delay spread and
`min_speed` set to the script's `speed` parameter; any other scenario
string matches no branch, leaving `self._channel_model` unassigned. -/
def configureChannelModel (scenario direction : String) (speed cf : ℚ) :
    Option ChannelModel :=
  if scenario = "umi" then
    some (.UMi cf "low" (utArrayOf cf) (bsArrayOf cf) direction false false)
  else if scenario = "uma" then
    some (.UMa cf "low" (utArrayOf cf) (bsArrayOf cf) direction false false)
  else if scenario = "rma" then
    some (.RMa cf (utArrayOf cf) (bsArrayOf cf) direction false false)
  else if scenario = "A" ∨ scenario = "B" ∨ scenario = "C" ∨
          scenario = "D" ∨ scenario = "E" then
    some (.CDL scenario nominalDelaySpread cf (utArrayOf cf) (bsArrayOf cf)
               direction speed)
  else
    none

/-- The system model assembled by `__init__` (lines 63-188): the
configuration parameters and every library block instance, by the
arguments the script passes. -/
structure MimoOfdmSystemModel where
  scenario : String
  perfectCsi : Bool
  direction : String
  speed : ℚ
  carrierFrequency : ℚ
  delaySpread : ℚ
  numBs : Nat
  numBsAnt : Nat
  numUt : Nat
  numUtAnt : Nat
  numBitsPerSymbol : Nat
  coderate : ℚ
  rxTxAssociation : List (List Nat)
  numTx : Nat
  numStreamsPerTx : Nat
  rg : ResourceGrid
  sm : StreamManagement
  utArray : AntennaArray
  bsArray : AntennaArray
  channelModel : ChannelModel
  n : Nat
  k : Nat
  encoder : LDPC5GEncoder
  decoder : LDPC5GDecoder
  mapper : MapperCfg
  demapper : DemapperCfg
  ofdmChannel : OFDMChannelCfg
  lsEst : LSChannelEstimatorCfg
  lmmseEqu : LMMSEEqualizerCfg
deriving DecidableEq, Repr

/-- The record `__init__` produces once a channel model `cm` has been
selected: `n = num_data_symbols * num_bits_per_symbol` coded bits
(line 173) and `k = int(n * coderate)` information bits (line 174; with
`coderate = 0.5` the float product `n * 0.5` is exact for these
magnitudes and truncation gives exactly `n / 2` in natural division),
the decoder built from the encoder (line 177), and the remaining blocks
with the script's constructor arguments (lines 170-188). -/
def buildModel (scenario : String) (perfectCsi : Bool) (direction : String)
    (speed cf : ℚ) (cm : ChannelModel) : MimoOfdmSystemModel :=
  let n : Nat := theResourceGrid.numDataSymbols * 2
  let k : Nat := n / 2
  let enc : LDPC5GEncoder := { k := k, n := n }
  { scenario := scenario, perfectCsi := perfectCsi, direction := direction,
    speed := speed, carrierFrequency := cf,
    delaySpread := nominalDelaySpread,
    numBs := 1, numBsAnt := 8, numUt := 1, numUtAnt := 4,
    numBitsPerSymbol := 2, coderate := 1 / 2,
    rxTxAssociation := [[1]],
    numTx := 1, numStreamsPerTx := 4,
    rg := theResourceGrid,
    sm := theStreamManagement,
    utArray := utArrayOf cf, bsArray := bsArrayOf cf,
    channelModel := cm,
    n := n, k := k,
    encoder := enc,
    decoder := { encoder := enc },
    mapper := { constellationType := "qam", numBitsPerSymbol := 2 },
    demapper := { demappingMethod := "app", constellationType := "qam",
                  numBitsPerSymbol := 2 },
    ofdmChannel := { channelModel := cm, rg := theResourceGrid,
                     addAwgn := true, normalizeChannel := true,
                     returnChannel := true },
    lsEst := { rg := theResourceGrid, interpolationType := "nn" },
    lmmseEqu := { rg := theResourceGrid, sm := theStreamManagement } }

/-- Constructing the model (`__init__`, lines 63-188).  When the scenario
matches no channel-model branch, `self._channel_model` is never assigned
and the `OFDMChannel` construction at line 182 raises `AttributeError`. -/
def mkMimoOfdmSystemModel (scenario : String) (perfectCsi : Bool)
    (direction : String) (speed cf : ℚ) :
    Except PyError MimoOfdmSystemModel :=
  match configureChannelModel scenario direction speed cf with
  | none => .error (.attributeError
      "MimoOfdmSystemModel object has no attribute _channel_model")
  | some cm => .ok (buildModel scenario perfectCsi direction speed cf cm)

/-- `new_topology` (lines 190-198): draw a single-sector topology with
`min_ut_velocity = max_ut_velocity = speed` and install it, replacing any
previous topology. -/
def MimoOfdmSystemModel.newTopology (m : MimoOfdmSystemModel)
    (batchSize : Nat) : ChannelState :=
  { topology := some { batchSize := batchSize, numUt := m.numUt,
                       scenario := m.scenario, minUtVelocity := m.speed,
                       maxUtVelocity := m.speed } }

/-- The CSI branch of `call` (lines 214-218): with perfect CSI the true
channel with nulled subcarriers removed and error variance `0.0`;
otherwise the LS estimate and its error variance from `y` and `no`. -/
def MimoOfdmSystemModel.csi (m : MimoOfdmSystemModel) (y h : Tensor)
    (no : Noise) : Tensor × Tensor :=
  if m.perfectCsi then
    (.removeNulledSubcarriers m.rg h, .scalarConst 0)
  else
    (.lsEstimateH m.lsEst y no, .lsEstimateErrVar m.lsEst y no)

/-- The forward pass `call` (lines 204-222): refresh the topology for the
stochastic-geometry scenarios, then source bits → LDPC encode → QAM map →
resource-grid map → OFDM channel (returning `y` and `h`) → CSI branch →
LMMSE equalize → demap → LDPC decode; returns `(b, b_hat)` together with
the resulting channel state. -/
def MimoOfdmSystemModel.call (m : MimoOfdmSystemModel) (st : ChannelState)
    (batchSize : Nat) (ebnoDb : ℚ) : ChannelState × Tensor × Tensor :=
  let stepState :=
    if m.scenario = "umi" ∨ m.scenario = "uma" ∨ m.scenario = "rma" then
      m.newTopology batchSize
    else st
  let no := Noise.ebnodb2no ebnoDb m.numBitsPerSymbol m.coderate m.rg
  let b := Tensor.binarySource [batchSize, m.numTx, m.numStreamsPerTx, m.k]
  let c := Tensor.ldpcEncode m.encoder b
  let x := Tensor.qamMap m.mapper c
  let xRg := Tensor.resourceGridMap m.rg x
  let y := Tensor.ofdmChannelY m.ofdmChannel xRg no
  let h := Tensor.ofdmChannelH m.ofdmChannel xRg no
  let hv := m.csi y h no
  let xHat := Tensor.lmmseEqualizeX m.lmmseEqu y hv.1 hv.2 no
  let noEff := Tensor.lmmseEqualizeNoEff m.lmmseEqu y hv.1 hv.2 no
  let llr := Tensor.demap m.demapper xHat noEff
  let bHat := Tensor.ldpcDecode m.decoder llr
  (stepState, b, bHat)

/-- The study configuration dictionary `MOBILITY_SIMS` (lines 227-237 of
the script): the parameter lists of the mobility study. -/
structure StudyConfig where
  ebnoDb : List ℚ
  scenario : List String
  perfectCsi : List Bool
  direction : List String
  carrierFrequency : List ℚ
  speed : List ℚ
deriving DecidableEq, Repr

/-- `MOBILITY_SIMS` (lines 227-237): the Eb/N0 sweep is
`list(np.arange(-5, 15, 1.0))`, i.e. the 20 values `-5.0 .. 14.0`; the
scenario list holds only `"umi"` (the longer list is commented out). -/
def MOBILITY_SIMS : StudyConfig :=
  { ebnoDb := (List.range 20).map (fun i => (i : ℚ) - 5),
    scenario := ["umi"],
    perfectCsi := [true, false],
    direction := ["uplink", "downlink"],
    carrierFrequency := [3500000000, 28000000000, 60000000000],
    speed := [0, 15, 30] }

/-- The parameters of one simulated model, as the driver constructs it
(lines 247-251 of the script). -/
structure SimRun where
  scenario : String
  perfectCsi : Bool
  direction : String
  speed : ℚ
  carrierFrequency : ℚ
deriving DecidableEq, Repr

/-- A BER or BLER estimate produced by the Monte-Carlo driver for one
model at one Eb/N0 point, kept symbolic. -/
inductive MetricValue where
  | ber (run : SimRun) (ebnoDb : ℚ)
  | bler (run : SimRun) (ebnoDb : ℚ)
deriving DecidableEq, Repr

/-- Modelled from the spec: the external library's Monte-Carlo driver
`sim_ber` returns one BER estimate and one BLER estimate per Eb/N0 point
of the sweep it is given. -/
def sim_ber (run : SimRun) (ebno : List ℚ) :
    List MetricValue × List MetricValue :=
  (ebno.map (MetricValue.ber run), ebno.map (MetricValue.bler run))

/-- `speed = MOBILITY_SIMS["speed"][0]` (line 239 of the script). -/
def driverSpeed : ℚ := MOBILITY_SIMS.speed[0]!

/-- `c_freq = MOBILITY_SIMS["carrier_frequency"][0]` (line 240). -/
def driverCarrierFrequency : ℚ := MOBILITY_SIMS.carrierFrequency[0]!

/-- The model parameters the driver loop passes for a given scenario
(lines 247-251): `perfect_csi = MOBILITY_SIMS["perfect_csi"][1]`,
`direction = MOBILITY_SIMS["direction"][0]`, and the fixed speed and
carrier frequency of lines 239-240. -/
def runFor (scen : String) : SimRun :=
  { scenario := scen,
    perfectCsi := MOBILITY_SIMS.perfectCsi[1]!,
    direction := MOBILITY_SIMS.direction[0]!,
    speed := driverSpeed,
    carrierFrequency := driverCarrierFrequency }

/-- The simulations the driver loop actually runs (lines 244-257): one
per entry of the scenario list, all other parameters fixed. -/
def driverRuns : List SimRun := MOBILITY_SIMS.scenario.map runFor

/-- The driver loop's accumulation of results (lines 244-260): for each
scenario, run `sim_ber` on the Eb/N0 sweep and append the BER curve to
the `ber` list and the BLER curve to the `bler` list. -/
def driverResults : List (List MetricValue) × List (List MetricValue) :=
  MOBILITY_SIMS.scenario.foldl
    (fun acc scen =>
      let r := sim_ber (runFor scen) MOBILITY_SIMS.ebnoDb
      (acc.1 ++ [r.1], acc.2 ++ [r.2]))
    ([], [])

/-- `batch_size=76` at the `sim_ber` call site (line 255 of the script). -/
def driverBatchSize : Nat := 76

/-- `max_mc_iter=100` at the `sim_ber` call site (line 256). -/
def driverMaxMcIter : Nat := 100

/-- `num_target_block_errors=1000` at the `sim_ber` call site (line 257). -/
def driverNumTargetBlockErrors : Nat := 1000

/-- Modelled from the spec: the iteration count of the library's
Monte-Carlo loop at one Eb/N0 point.  `errs j` is the number of block
errors observed in batch `j`; starting from batch index `i` with `acc`
block errors already accumulated and `fuel` iterations still allowed, the
loop stops as soon as the target is reached and otherwise consumes one
iteration per batch. -/
def simBerItersFrom (target : Nat) (errs : Nat → Nat) :
    Nat → Nat → Nat → Nat
  | 0, _, _ => 0
  | fuel + 1, i, acc =>
      if target ≤ acc then 0
      else simBerItersFrom target errs fuel (i + 1) (acc + errs i) + 1

/-- Modelled from the spec: the number of Monte-Carlo batches `sim_ber`
simulates at one Eb/N0 point, given the per-batch block-error counts. -/
def simBerNumIters (maxMcIter target : Nat) (errs : Nat → Nat) : Nat :=
  simBerItersFrom target errs maxMcIter 0 0

/-- A model as the driver constructs one for the CDL-A scenario with
perfect CSI (used as a concrete instance in witnesses). -/
def exampleModel : MimoOfdmSystemModel :=
  buildModel "A" true "uplink" 0 3500000000
    (.CDL "A" nominalDelaySpread 3500000000 (utArrayOf 3500000000)
          (bsArrayOf 3500000000) "uplink" 0)

/-- A model for the "umi" scenario with estimated CSI (a concrete
instance for witnesses). -/
def exampleModelUmi : MimoOfdmSystemModel :=
  buildModel "umi" false "uplink" 0 3500000000
    (.UMi 3500000000 "low" (utArrayOf 3500000000) (bsArrayOf 3500000000)
          "uplink" false false)

/-!
Spec-side pipeline.  The following `spec...` definitions transcribe the
spec's claimed processing order (encoding → modulation → resource-grid
mapping → channel application → channel estimation → equalization →
demapping → decoding) as a composition of symbolic blocks, to be compared
with the embedded `MimoOfdmSystemModel.call`.
-/

/-- The noise power of the spec's chain. -/
def specNoise (m : MimoOfdmSystemModel) (e : ℚ) : Noise :=
  Noise.ebnodb2no e m.numBitsPerSymbol m.coderate m.rg

/-- The freshly drawn information bits. -/
def specSourceBits (m : MimoOfdmSystemModel) (B : Nat) : Tensor :=
  Tensor.binarySource [B, m.numTx, m.numStreamsPerTx, m.k]

/-- Step 1: LDPC encoding of the source bits. -/
def specCodeword (m : MimoOfdmSystemModel) (B : Nat) : Tensor :=
  Tensor.ldpcEncode m.encoder (specSourceBits m B)

/-- Step 2: QAM mapping of the codeword. -/
def specSymbols (m : MimoOfdmSystemModel) (B : Nat) : Tensor :=
  Tensor.qamMap m.mapper (specCodeword m B)

/-- Step 3: resource-grid mapping of the symbols. -/
def specGrid (m : MimoOfdmSystemModel) (B : Nat) : Tensor :=
  Tensor.resourceGridMap m.rg (specSymbols m B)

/-- Step 4: OFDM channel application, received signal. -/
def specReceived (m : MimoOfdmSystemModel) (B : Nat) (e : ℚ) : Tensor :=
  Tensor.ofdmChannelY m.ofdmChannel (specGrid m B) (specNoise m e)

/-- Step 4 continued: the true channel realization returned alongside. -/
def specTrueChannel (m : MimoOfdmSystemModel) (B : Nat) (e : ℚ) : Tensor :=
  Tensor.ofdmChannelH m.ofdmChannel (specGrid m B) (specNoise m e)

/-- Step 5: channel estimation, or true-channel extraction under perfect
CSI, yielding the channel estimate and its error variance. -/
def specCsiPair (m : MimoOfdmSystemModel) (B : Nat) (e : ℚ) :
    Tensor × Tensor :=
  m.csi (specReceived m B e) (specTrueChannel m B e) (specNoise m e)

/-- Step 6: LMMSE equalization, equalized symbols. -/
def specEqualized (m : MimoOfdmSystemModel) (B : Nat) (e : ℚ) : Tensor :=
  Tensor.lmmseEqualizeX m.lmmseEqu (specReceived m B e)
    (specCsiPair m B e).1 (specCsiPair m B e).2 (specNoise m e)

/-- Step 6 continued: the effective noise returned alongside. -/
def specNoiseEff (m : MimoOfdmSystemModel) (B : Nat) (e : ℚ) : Tensor :=
  Tensor.lmmseEqualizeNoEff m.lmmseEqu (specReceived m B e)
    (specCsiPair m B e).1 (specCsiPair m B e).2 (specNoise m e)

/-- Step 7: demapping the equalized symbols to LLRs. -/
def specLlr (m : MimoOfdmSystemModel) (B : Nat) (e : ℚ) : Tensor :=
  Tensor.demap m.demapper (specEqualized m B e) (specNoiseEff m B e)

/-- Step 8: LDPC decoding of the LLRs. -/
def specDecodedBits (m : MimoOfdmSystemModel) (B : Nat) (e : ℚ) : Tensor :=
  Tensor.ldpcDecode m.decoder (specLlr m B e)

/-- C1: for every batch size and Eb/N0 value, the forward pass of a model
built by `__init__` applies the blocks in exactly the order LDPC encode →
QAM map → resource-grid map → OFDM channel with AWGN → channel estimation
(or true-channel extraction) → LMMSE equalization → demapping → LDPC
decoding, and returns the transmitted information bits together with the
decoded bits. -/
theorem call_follows_spec_pipeline (s : String) (pc : Bool) (d : String)
    (v cf : ℚ) (m : MimoOfdmSystemModel)
    (hm : mkMimoOfdmSystemModel s pc d v cf = Except.ok m)
    (st : ChannelState) (B : Nat) (e : ℚ) :
    m.ofdmChannel.addAwgn = true ∧
    (m.call st B e).2 = (specSourceBits m B, specDecodedBits m B e) := by
  constructor
  · unfold mkMimoOfdmSystemModel at hm
    cases hc : configureChannelModel s d v cf with
    | none => rw [hc] at hm; exact absurd hm (by simp)
    | some cm =>
        rw [hc] at hm
        simp only [Except.ok.injEq] at hm
        subst hm
        rfl
  · rfl

/-- Witness for C1 at the CDL-A model with batch size 5 and 0 dB. -/
theorem call_follows_spec_pipeline_witness :
    exampleModel.ofdmChannel.addAwgn = true ∧
    (exampleModel.call (ChannelState.mk none) 5 0).2 =
      (specSourceBits exampleModel 5, specDecodedBits exampleModel 5 0) :=
  call_follows_spec_pipeline "A" true "uplink" 0 3500000000 exampleModel
    rfl (ChannelState.mk none) 5 0

/-- C2: for every supported scenario string, constructing the model
configures the corresponding 3GPP TR 38.901 channel model: UMi for
"umi", UMa for "uma", RMa for "rma", and a CDL model of the named
profile with the nominal 300 ns delay spread and the given minimum
speed for "A" through "E". -/
theorem scenario_selects_channel_model (pc : Bool) (d : String)
    (v cf : ℚ) :
    (mkMimoOfdmSystemModel "umi" pc d v cf).map
        (fun m => m.channelModel) =
      Except.ok (.UMi cf "low" (utArrayOf cf) (bsArrayOf cf) d
                 false false) ∧
    (mkMimoOfdmSystemModel "uma" pc d v cf).map
        (fun m => m.channelModel) =
      Except.ok (.UMa cf "low" (utArrayOf cf) (bsArrayOf cf) d
                 false false) ∧
    (mkMimoOfdmSystemModel "rma" pc d v cf).map
        (fun m => m.channelModel) =
      Except.ok (.RMa cf (utArrayOf cf) (bsArrayOf cf) d false false) ∧
    (mkMimoOfdmSystemModel "A" pc d v cf).map
        (fun m => m.channelModel) =
      Except.ok (.CDL "A" nominalDelaySpread cf (utArrayOf cf)
                 (bsArrayOf cf) d v) ∧
    (mkMimoOfdmSystemModel "B" pc d v cf).map
        (fun m => m.channelModel) =
      Except.ok (.CDL "B" nominalDelaySpread cf (utArrayOf cf)
                 (bsArrayOf cf) d v) ∧
    (mkMimoOfdmSystemModel "C" pc d v cf).map
        (fun m => m.channelModel) =
      Except.ok (.CDL "C" nominalDelaySpread cf (utArrayOf cf)
                 (bsArrayOf cf) d v) ∧
    (mkMimoOfdmSystemModel "D" pc d v cf).map
        (fun m => m.channelModel) =
      Except.ok (.CDL "D" nominalDelaySpread cf (utArrayOf cf)
                 (bsArrayOf cf) d v) ∧
    (mkMimoOfdmSystemModel "E" pc d v cf).map
        (fun m => m.channelModel) =
      Except.ok (.CDL "E" nominalDelaySpread cf (utArrayOf cf)
                 (bsArrayOf cf) d v) ∧
    nominalDelaySpread = 300 / 1000000000 :=
  ⟨rfl, rfl, rfl, rfl, rfl, rfl, rfl, rfl, rfl⟩

/-- C4: in every forward pass the CSI is obtained in exactly one of two
ways, decided by the `perfectCsi` flag fixed at construction: with
perfect CSI the true channel with nulled subcarriers removed and error
variance exactly 0; otherwise the LS estimate computed from the received
signal and the noise power. -/
theorem csi_branch (m : MimoOfdmSystemModel) (y h : Tensor) (no : Noise) :
    (m.perfectCsi = true →
      m.csi y h no =
        (Tensor.removeNulledSubcarriers m.rg h, Tensor.scalarConst 0)) ∧
    (m.perfectCsi = false →
      m.csi y h no =
        (Tensor.lsEstimateH m.lsEst y no,
         Tensor.lsEstimateErrVar m.lsEst y no)) := by
  constructor
  · intro hpc
    simp [MimoOfdmSystemModel.csi, hpc]
  · intro hpc
    simp [MimoOfdmSystemModel.csi, hpc]

/-- Witness for C4 at the perfect-CSI example model on concrete inputs. -/
theorem csi_branch_witness :
    exampleModel.csi (Tensor.scalarConst 1) (Tensor.scalarConst 2)
        (Noise.ebnodb2no 0 2 (1 / 2) theResourceGrid) =
      (Tensor.removeNulledSubcarriers exampleModel.rg
         (Tensor.scalarConst 2), Tensor.scalarConst 0) :=
  (csi_branch exampleModel (Tensor.scalarConst 1) (Tensor.scalarConst 2)
    (Noise.ebnodb2no 0 2 (1 / 2) theResourceGrid)).1 rfl

/-- C8: for every scenario string outside the eight supported values, no
branch of the channel-model selection fires and model construction fails
with an `AttributeError` at the `OFDMChannel` construction, rather than
producing a model with some default channel. -/
theorem unknown_scenario_raises (s : String)
    (hs : s ∉ (["umi", "uma", "rma", "A", "B", "C", "D", "E"] :
               List String))
    (pc : Bool) (d : String) (v cf : ℚ) :
    mkMimoOfdmSystemModel s pc d v cf =
      Except.error (PyError.attributeError
        "MimoOfdmSystemModel object has no attribute _channel_model") := by
  simp only [List.mem_cons, List.not_mem_nil, or_false, not_or] at hs
  obtain ⟨h1, h2, h3, h4, h5, h6, h7, h8⟩ := hs
  simp [mkMimoOfdmSystemModel, configureChannelModel,
        h1, h2, h3, h4, h5, h6, h7, h8]

/-- Witness for C8 at the unsupported scenario string "foo". -/
theorem unknown_scenario_raises_witness :
    mkMimoOfdmSystemModel "foo" true "uplink" 0 3500000000 =
      Except.error (PyError.attributeError
        "MimoOfdmSystemModel object has no attribute _channel_model") :=
  unknown_scenario_raises "foo" (by decide) true "uplink" 0 3500000000

/-- C6: every constructed model uses the library's 5G NR LDPC code with
`n = num_data_symbols * num_bits_per_symbol` coded bits and
`k = n * coderate` information bits (coderate 1/2, 2 bits per symbol),
and its decoder is built from the same encoder, so the code used for
decoding matches the one used for encoding. -/
theorem ldpc_code_configuration (s : String) (pc : Bool) (d : String)
    (v cf : ℚ) (m : MimoOfdmSystemModel)
    (hm : mkMimoOfdmSystemModel s pc d v cf = Except.ok m) :
    m.n = m.rg.numDataSymbols * m.numBitsPerSymbol ∧
    m.numBitsPerSymbol = 2 ∧
    m.coderate = 1 / 2 ∧
    (m.k : ℚ) = (m.n : ℚ) * m.coderate ∧
    m.encoder = { k := m.k, n := m.n } ∧
    m.decoder = { encoder := m.encoder } := by
  unfold mkMimoOfdmSystemModel at hm
  cases hc : configureChannelModel s d v cf with
  | none => rw [hc] at hm; exact absurd hm (by simp)
  | some cm =>
      rw [hc] at hm
      simp only [Except.ok.injEq] at hm
      subst hm
      refine ⟨rfl, rfl, rfl, ?_, rfl, rfl⟩
      norm_num [buildModel, theResourceGrid, ResourceGrid.numDataSymbols,
                ResourceGrid.numPilotSymbols,
                ResourceGrid.numEffectiveSubcarriers]

/-- Witness for C6 at the CDL-A example model. -/
theorem ldpc_code_configuration_witness :
    exampleModel.n =
      exampleModel.rg.numDataSymbols * exampleModel.numBitsPerSymbol ∧
    exampleModel.numBitsPerSymbol = 2 ∧
    exampleModel.coderate = 1 / 2 ∧
    (exampleModel.k : ℚ) = (exampleModel.n : ℚ) * exampleModel.coderate ∧
    exampleModel.encoder = { k := exampleModel.k, n := exampleModel.n } ∧
    exampleModel.decoder = { encoder := exampleModel.encoder } :=
  ldpc_code_configuration "A" true "uplink" 0 3500000000 exampleModel rfl

/-- C9: for every batch size, the forward pass returns a pair `(b, b_hat)`
in which `b` is the freshly drawn information-bit tensor of shape
`[batch_size, num_tx, num_streams_per_tx, k]` — here
`[batch_size, 1, 4, k]` — and the decoder output `b_hat` has that same
shape, so transmitted and decoded bits are comparable element-wise. -/
theorem returned_bit_tensors_shapes (s : String) (pc : Bool) (d : String)
    (v cf : ℚ) (m : MimoOfdmSystemModel)
    (hm : mkMimoOfdmSystemModel s pc d v cf = Except.ok m)
    (st : ChannelState) (B : Nat) (e : ℚ) :
    ((m.call st B e).2.1).shape = [B, m.numTx, m.numStreamsPerTx, m.k] ∧
    m.numTx = 1 ∧ m.numStreamsPerTx = 4 ∧
    ((m.call st B e).2.2).shape = ((m.call st B e).2.1).shape := by
  unfold mkMimoOfdmSystemModel at hm
  cases hc : configureChannelModel s d v cf with
  | none => rw [hc] at hm; exact absurd hm (by simp)
  | some cm =>
      rw [hc] at hm
      simp only [Except.ok.injEq] at hm
      subst hm
      refine ⟨rfl, rfl, rfl, ?_⟩
      cases pc <;> rfl

/-- Witness for C9 at the CDL-A example model with batch size 5. -/
theorem returned_bit_tensors_shapes_witness :
    ((exampleModel.call (ChannelState.mk none) 5 0).2.1).shape =
      [5, exampleModel.numTx, exampleModel.numStreamsPerTx,
       exampleModel.k] ∧
    exampleModel.numTx = 1 ∧ exampleModel.numStreamsPerTx = 4 ∧
    ((exampleModel.call (ChannelState.mk none) 5 0).2.2).shape =
      ((exampleModel.call (ChannelState.mk none) 5 0).2.1).shape :=
  returned_bit_tensors_shapes "A" true "uplink" 0 3500000000 exampleModel
    rfl (ChannelState.mk none) 5 0

/-- C10: a new network topology is drawn and installed on every forward
pass exactly for the stochastic-geometry scenarios "umi", "uma" and
"rma" (with both velocity bounds set to the model's speed); for the CDL
scenarios "A" through "E" the forward pass leaves the topology state
untouched, and mobility enters only through the `min_speed` parameter
fixed when the CDL channel model is constructed. -/
theorem topology_refresh_per_scenario (m : MimoOfdmSystemModel)
    (st : ChannelState) (B : Nat) (e : ℚ) :
    ((m.scenario = "umi" ∨ m.scenario = "uma" ∨ m.scenario = "rma") →
      (m.call st B e).1 =
        ChannelState.mk (some (Topology.mk B m.numUt m.scenario
                               m.speed m.speed))) ∧
    ((m.scenario = "A" ∨ m.scenario = "B" ∨ m.scenario = "C" ∨
      m.scenario = "D" ∨ m.scenario = "E") →
      (m.call st B e).1 = st ∧
      ∀ (d : String) (v cf : ℚ),
        configureChannelModel m.scenario d v cf =
          some (.CDL m.scenario nominalDelaySpread cf (utArrayOf cf)
                (bsArrayOf cf) d v)) := by
  constructor
  · intro hsc
    rcases hsc with h | h | h <;>
      simp [MimoOfdmSystemModel.call, MimoOfdmSystemModel.newTopology, h]
  · intro hsc
    constructor
    · rcases hsc with h | h | h | h | h <;>
        simp [MimoOfdmSystemModel.call, h]
    · intro d v cf
      rcases hsc with h | h | h | h | h <;>
        simp [configureChannelModel, h]

/-- Witness for C10: the CDL-A example model's forward pass leaves the
topology state unchanged, and the CDL construction receives the speed
as `min_speed`. -/
theorem topology_refresh_per_scenario_witness :
    (exampleModel.call (ChannelState.mk none) 3 0).1 =
      ChannelState.mk none ∧
    configureChannelModel exampleModel.scenario "downlink" 9 7 =
      some (.CDL exampleModel.scenario nominalDelaySpread 7 (utArrayOf 7)
            (bsArrayOf 7) "downlink" 9) := by
  have h := (topology_refresh_per_scenario exampleModel
    (ChannelState.mk none) 3 0).2 (Or.inl rfl)
  exact ⟨h.1, h.2 "downlink" 9 7⟩

/-- The loop counter of the modelled Monte-Carlo loop never exceeds the
remaining iteration budget. -/
theorem simBerItersFrom_le (target : Nat) (errs : Nat → Nat) :
    ∀ fuel i acc, simBerItersFrom target errs fuel i acc ≤ fuel := by
  intro fuel
  induction fuel with
  | zero => intro i acc; simp [simBerItersFrom]
  | succ f ih =>
      intro i acc
      by_cases h : target ≤ acc
      · simp [simBerItersFrom, h]
      · have := ih (i + 1) (acc + errs i)
        simp only [simBerItersFrom, h, if_false]
        omega

/-- Once the block errors accumulated over the first `m` batches reach
the target, the modelled loop performs at most `m` iterations. -/
theorem simBerItersFrom_earlyStop (target : Nat) (errs : Nat → Nat) :
    ∀ fuel m i, i ≤ m →
      target ≤ (Finset.range m).sum errs →
      simBerItersFrom target errs fuel i ((Finset.range i).sum errs) ≤
        m - i := by
  intro fuel
  induction fuel with
  | zero => intro m i _ _; simp [simBerItersFrom]
  | succ f ih =>
      intro m i him htar
      by_cases h : target ≤ (Finset.range i).sum errs
      · simp [simBerItersFrom, h]
      · have hlt : i < m := by
          rcases Nat.lt_or_ge i m with h1 | h1
          · exact h1
          · exact absurd (le_trans htar
              (Finset.sum_le_sum_of_subset
                (Finset.range_subset.mpr h1))) h
        have hsum : (Finset.range i).sum errs + errs i =
            (Finset.range (i + 1)).sum errs :=
          (Finset.sum_range_succ errs i).symm
        simp only [simBerItersFrom, h, if_false]
        rw [hsum]
        have := ih m (i + 1) hlt htar
        omega

/-- C5: the Monte-Carlo BER/BLER estimation loop is called with batch
size 76, at most 100 Monte-Carlo iterations, and a target of 1000 block
errors; whatever block-error counts the batches produce, it stops as
soon as the accumulated block errors reach the target and never
simulates more than 100 batches per Eb/N0 point. -/
theorem sim_ber_loop_bound :
    driverBatchSize = 76 ∧ driverMaxMcIter = 100 ∧
    driverNumTargetBlockErrors = 1000 ∧
    (∀ errs : Nat → Nat,
      simBerNumIters driverMaxMcIter driverNumTargetBlockErrors errs ≤
        100) ∧
    (∀ (errs : Nat → Nat) (m : Nat),
      driverNumTargetBlockErrors ≤ (Finset.range m).sum errs →
      simBerNumIters driverMaxMcIter driverNumTargetBlockErrors errs ≤
        m) := by
  refine ⟨rfl, rfl, rfl, ?_, ?_⟩
  · intro errs
    exact simBerItersFrom_le 1000 errs 100 0 0
  · intro errs m htar
    have h := simBerItersFrom_earlyStop 1000 errs 100 m 0 (Nat.zero_le m)
      (by simpa using htar)
    simpa [simBerNumIters] using h

/-- Witness for C5: with 1000 block errors already in the first batch,
the loop stops after at most one batch. -/
theorem sim_ber_loop_bound_witness :
    simBerNumIters driverMaxMcIter driverNumTargetBlockErrors
      (fun _ => 1000) ≤ 1 :=
  sim_ber_loop_bound.2.2.2.2 (fun _ => 1000) 1
    (by simp [driverNumTargetBlockErrors])

/-- C3 counterexample: the study configuration lists `perfect_csi = True`
(and speeds 15 and 30, and the higher carrier frequencies), but the
driver loop runs no simulation with perfect CSI — it fixes
`perfect_csi` to the second list entry, `False` — so not every listed
parameter combination is simulated. -/
theorem mobility_study_counterexample :
    true ∈ MOBILITY_SIMS.perfectCsi ∧
    ¬ ∃ r ∈ driverRuns, r.perfectCsi = true := by
  constructor
  · decide
  · decide

/-- C3 amended: the configuration lists varying CSI assumptions, carrier
frequencies and speeds, but the driver iterates only over the scenario
list `["umi"]`, fixing `perfect_csi` to `False` (list entry 1), the
direction to `"uplink"` and the speed and carrier frequency to the
first listed values (0 m/s and 3.5 GHz); exactly one simulation is run
and exactly one BER curve and one BLER curve are recorded. -/
theorem mobility_study_single_run :
    driverRuns = [{ scenario := "umi", perfectCsi := false,
                    direction := "uplink", speed := 0,
                    carrierFrequency := 3500000000 }] ∧
    driverResults.1.length = 1 ∧ driverResults.2.length = 1 := by
  refine ⟨?_, ?_, ?_⟩ <;> decide

/-- C7: the driver records exactly one BER list and one BLER list per
simulated scenario, each with one value per Eb/N0 point of the sweep
`list(np.arange(-5, 15, 1.0))` — 20 points, from -5 dB to 14 dB. -/
theorem ber_bler_outputs :
    MOBILITY_SIMS.ebnoDb =
      [-5, -4, -3, -2, -1, 0, 1, 2, 3, 4, 5, 6, 7, 8, 9, 10, 11, 12,
       13, 14] ∧
    MOBILITY_SIMS.ebnoDb.length = 20 ∧
    driverResults.1.length = MOBILITY_SIMS.scenario.length ∧
    driverResults.2.length = MOBILITY_SIMS.scenario.length ∧
    driverResults.1.map List.length =
      List.replicate MOBILITY_SIMS.scenario.length 20 ∧
    driverResults.2.map List.length =
      List.replicate MOBILITY_SIMS.scenario.length 20 := by
  refine ⟨?_, by decide, by decide, by decide, by decide, by decide⟩
  show (List.range 20).map (fun i => (i : ℚ) - 5) = _
  norm_num [List.range_succ]
